import Mathlib

/-!
Verification of the `netutils` reserved-IP classifier
(`src/ip/reservedip/reservedip.cpp`).

The C code consists of two pure classifiers:

* `IsReservedIPv4(uint32_t ip_host)`: binary search over the static sorted
  table `ipv4_reserved_ranges` of nine inclusive `[start, end]` ranges.
* `IsReservedIPv6(const uint8_t* ip16)`: null check, then a linear scan over
  the static table `ipv6_reserved_prefixes` of eight `(prefix bytes,
  prefix_len)` entries, using `ipv6_matches_prefix` for the per-entry
  bitwise prefix comparison.

The shallow embedding below translates the code directly: 32-bit addresses
and 8-bit bytes become `Nat` (the code only compares them, never does
arithmetic on them, so no wrap-around modelling is needed; the claims'
32-bit / byte bounds appear as hypotheses where relevant); the C `int`
loop indices `left`, `right`, `mid` become `Int` (so that `right = mid - 1`
can go negative exactly as in C; Lean's `Int` division agrees with C's
truncating division on the nonnegative numerators that occur here, and the
termination argument below covers all integer arguments);
the null-pointer case of `IsReservedIPv6` becomes `Option.none`.
-/

set_option maxRecDepth 8000

/-- C struct `IPv4Range { uint32_t start; uint32_t end; }`.
The C field `end` is a Lean keyword, hence `end_`. -/
structure IPv4Range where
  start : Nat
  end_ : Nat
deriving DecidableEq

/-- The static table `ipv4_reserved_ranges` from the C file, in the same
order (ascending by `start`). -/
def ipv4_reserved_ranges : List IPv4Range := [
  ⟨0x00000000, 0x00FFFFFF⟩,   -- 0.0.0.0/8 - Current network
  ⟨0x64400000, 0x647FFFFF⟩,   -- 100.64.0.0/10 - Shared address space (CGNAT)
  ⟨0xC0000000, 0xC0000007⟩,   -- 192.0.0.0/29 - IPv4 special purpose
  ⟨0xC0000200, 0xC00002FF⟩,   -- 192.0.2.0/24 - TEST-NET-1
  ⟨0xC0586300, 0xC05863FF⟩,   -- 192.88.99.0/24 - 6to4 relay anycast
  ⟨0xC6120000, 0xC613FFFF⟩,   -- 198.18.0.0/15 - Network benchmarking
  ⟨0xC6336400, 0xC63364FF⟩,   -- 198.51.100.0/24 - TEST-NET-2
  ⟨0xCB007100, 0xCB0071FF⟩,   -- 203.0.113.0/24 - TEST-NET-3
  ⟨0xE0000000, 0xFFFFFFFF⟩]   -- 224.0.0.0/3 - Multicast addresses

/-- C: `static const int ipv4_ranges_count = sizeof(...)/sizeof(IPv4Range)`. -/
def ipv4_ranges_count : Int := ipv4_reserved_ranges.length

/-- The `while (left <= right)` binary-search loop inside `IsReservedIPv4`,
written as a recursion on the loop state `(left, right)`.
C: `mid = (left + right) / 2; range = &ipv4_reserved_ranges[mid];
if (ip_host >= range->start && ip_host <= range->end) return 1;
else if (ip_host < range->start) right = mid - 1; else left = mid + 1;`
and `return 0` when the loop exits. -/
def ipv4SearchLoop (ip_host : Nat) (left right : Int) : Nat :=
  if left ≤ right then
    let mid : Int := (left + right) / 2
    let range := ipv4_reserved_ranges.getD mid.toNat ⟨0, 0⟩
    if ip_host ≥ range.start ∧ ip_host ≤ range.end_ then 1
    else if ip_host < range.start then ipv4SearchLoop ip_host left (mid - 1)
    else ipv4SearchLoop ip_host (mid + 1) right
  else 0
termination_by (right + 1 - left).toNat
decreasing_by
  · omega
  · omega

/-- C function `IsReservedIPv4`: run the binary search on the whole table. -/
def IsReservedIPv4 (ip_host : Nat) : Nat :=
  ipv4SearchLoop ip_host 0 (ipv4_ranges_count - 1)

/-- Fuel-indexed variant of the binary-search loop, used to state the
termination claim: `none` means the iteration budget was exhausted.
The loop body is identical to `ipv4SearchLoop`. -/
def ipv4SearchLoopFuel : Nat → Nat → Int → Int → Option Nat
  | 0, _, _, _ => none
  | fuel + 1, ip_host, left, right =>
    if left ≤ right then
      let mid : Int := (left + right) / 2
      let range := ipv4_reserved_ranges.getD mid.toNat ⟨0, 0⟩
      if ip_host ≥ range.start ∧ ip_host ≤ range.end_ then some 1
      else if ip_host < range.start then ipv4SearchLoopFuel fuel ip_host left (mid - 1)
      else ipv4SearchLoopFuel fuel ip_host (mid + 1) right
    else some 0

/-- Spec-side description (claim C8): a naive linear scan that tests
membership of the input in each of the nine table ranges in turn. -/
def linearScanIPv4 (ip : Nat) : Nat :=
  if ipv4_reserved_ranges.any (fun r => decide (r.start ≤ ip ∧ ip ≤ r.end_)) then 1 else 0

/-- C struct `IPv6Prefix { uint8_t prefix[16]; uint8_t prefix_len; }`.
The C field `prefix` is a Lean keyword, hence `pfx`. -/
structure IPv6Prefix where
  pfx : List Nat
  prefix_len : Nat
deriving DecidableEq

/-- The static table `ipv6_reserved_prefixes` from the C file, same order. -/
def ipv6_reserved_prefixes : List IPv6Prefix := [
  -- ::/128 - IPv6 unspecified address
  ⟨[0, 0, 0, 0, 0, 0, 0, 0, 0, 0, 0, 0, 0, 0, 0, 0], 128⟩,
  -- ::ffff:0:0/96 - IPv4-mapped addresses
  ⟨[0, 0, 0, 0, 0, 0, 0, 0, 0, 0, 0xFF, 0xFF, 0, 0, 0, 0], 96⟩,
  -- 100::/64 - Discard prefix
  ⟨[0x01, 0x00, 0, 0, 0, 0, 0, 0, 0, 0, 0, 0, 0, 0, 0, 0], 64⟩,
  -- 2001::/32 - Teredo tunneling
  ⟨[0x20, 0x01, 0, 0, 0, 0, 0, 0, 0, 0, 0, 0, 0, 0, 0, 0], 32⟩,
  -- 2001:10::/28 - ORCHID (old)
  ⟨[0x20, 0x01, 0x00, 0x10, 0, 0, 0, 0, 0, 0, 0, 0, 0, 0, 0, 0], 28⟩,
  -- 2001:20::/28 - ORCHIDv2
  ⟨[0x20, 0x01, 0x00, 0x20, 0, 0, 0, 0, 0, 0, 0, 0, 0, 0, 0, 0], 28⟩,
  -- 2001:db8::/32 - Documentation example addresses
  ⟨[0x20, 0x01, 0x0d, 0xb8, 0, 0, 0, 0, 0, 0, 0, 0, 0, 0, 0, 0], 32⟩,
  -- ff00::/8 - IPv6 multicast addresses
  ⟨[0xFF, 0, 0, 0, 0, 0, 0, 0, 0, 0, 0, 0, 0, 0, 0, 0], 8⟩]

/-- C: `static const int ipv6_prefixes_count = sizeof(...)/sizeof(IPv6Prefix)`. -/
def ipv6_prefixes_count : Nat := ipv6_reserved_prefixes.length

/-- C function `ipv6_matches_prefix` (the suffix of that name is a Lean
keyword, hence `_pfx`): compare the `prefix_len / 8` complete leading bytes
for equality, then, if `prefix_len % 8 > 0`, compare the next byte under the
mask `(uint8_t)(0xFF << (8 - remaining_bits))` (the C assignment to a
`uint8_t` truncates mod 256). The early-`return 0` byte loop becomes
`List.all` over the byte indices. -/
def ipv6_matches_pfx (ip : List Nat) (p : IPv6Prefix) : Nat :=
  let bytes_to_check := p.prefix_len / 8
  let remaining_bits := p.prefix_len % 8
  if (List.range bytes_to_check).all (fun i => ip.getD i 0 == p.pfx.getD i 0) then
    if remaining_bits > 0 then
      let mask : Nat := (0xFF <<< (8 - remaining_bits)) % 256
      if (ip.getD bytes_to_check 0) &&& mask == (p.pfx.getD bytes_to_check 0) &&& mask then 1
      else 0
    else 1
  else 0

/-- C function `IsReservedIPv6`: `none` models the null pointer; otherwise a
linear scan over the prefix table, returning 1 at the first match. -/
def IsReservedIPv6 : Option (List Nat) → Nat
  | none => 0
  | some ip =>
    if ipv6_reserved_prefixes.any (fun p => ipv6_matches_pfx ip p == 1) then 1 else 0

/-- Spec-side description (claim C3) of a single-entry match: the address
agrees with the entry on all `prefix_len / 8` complete leading bytes, and,
when `prefix_len` is not byte-aligned, on the next byte under the mask
`0xFF << (8 - remaining_bits)` (the claim's mask, without the `uint8_t`
truncation of the code). -/
def matchesSpecIPv6 (ip : List Nat) (p : IPv6Prefix) : Prop :=
  (∀ i < p.prefix_len / 8, ip.getD i 0 = p.pfx.getD i 0) ∧
  (p.prefix_len % 8 ≠ 0 →
    (ip.getD (p.prefix_len / 8) 0) &&& (0xFF <<< (8 - p.prefix_len % 8)) =
      (p.pfx.getD (p.prefix_len / 8) 0) &&& (0xFF <<< (8 - p.prefix_len % 8)))

/-- A well-formed IPv6 address for the claims: exactly 16 bytes, each < 256. -/
def ValidIPv6 (ip : List Nat) : Prop :=
  ip.length = 16 ∧ ∀ b ∈ ip, b < 256

/-! ### IPv4 binary search: unrolling the concrete search tree

`ipv4SearchLoop` on the fixed nine-entry table visits only finitely many
`(left, right)` states.  The lemmas below compute its value at each
reachable state, bottom-up, giving a closed linear characterization. -/

lemma ipv4SearchLoop_stop (ip : Nat) (l r : Int) (h : r < l) :
    ipv4SearchLoop ip l r = 0 := by
  rw [ipv4SearchLoop]
  simp [not_le.mpr h]

lemma ipv4SearchLoop_0_0 (ip : Nat) :
    ipv4SearchLoop ip 0 0 = if ip ≤ 0x00FFFFFF then 1 else 0 := by
  rw [ipv4SearchLoop]
  show (if ip ≥ 0x00000000 ∧ ip ≤ 0x00FFFFFF then 1
        else if ip < 0x00000000 then ipv4SearchLoop ip 0 (-1) else ipv4SearchLoop ip 1 0) = _
  rw [ipv4SearchLoop_stop ip 0 (-1) (by norm_num), ipv4SearchLoop_stop ip 1 0 (by norm_num)]
  split_ifs <;> omega

lemma ipv4SearchLoop_3_3 (ip : Nat) :
    ipv4SearchLoop ip 3 3 = if 0xC0000200 ≤ ip ∧ ip ≤ 0xC00002FF then 1 else 0 := by
  rw [ipv4SearchLoop]
  show (if ip ≥ 0xC0000200 ∧ ip ≤ 0xC00002FF then 1
        else if ip < 0xC0000200 then ipv4SearchLoop ip 3 2 else ipv4SearchLoop ip 4 3) = _
  rw [ipv4SearchLoop_stop ip 3 2 (by norm_num), ipv4SearchLoop_stop ip 4 3 (by norm_num)]
  split_ifs <;> omega

lemma ipv4SearchLoop_2_3 (ip : Nat) :
    ipv4SearchLoop ip 2 3 =
      if (0xC0000000 ≤ ip ∧ ip ≤ 0xC0000007) ∨ (0xC0000200 ≤ ip ∧ ip ≤ 0xC00002FF)
      then 1 else 0 := by
  rw [ipv4SearchLoop]
  show (if ip ≥ 0xC0000000 ∧ ip ≤ 0xC0000007 then 1
        else if ip < 0xC0000000 then ipv4SearchLoop ip 2 1 else ipv4SearchLoop ip 3 3) = _
  rw [ipv4SearchLoop_stop ip 2 1 (by norm_num), ipv4SearchLoop_3_3]
  split_ifs <;> omega

lemma ipv4SearchLoop_0_3 (ip : Nat) :
    ipv4SearchLoop ip 0 3 =
      if ip ≤ 0x00FFFFFF ∨ (0x64400000 ≤ ip ∧ ip ≤ 0x647FFFFF) ∨
          (0xC0000000 ≤ ip ∧ ip ≤ 0xC0000007) ∨ (0xC0000200 ≤ ip ∧ ip ≤ 0xC00002FF)
      then 1 else 0 := by
  rw [ipv4SearchLoop]
  show (if ip ≥ 0x64400000 ∧ ip ≤ 0x647FFFFF then 1
        else if ip < 0x64400000 then ipv4SearchLoop ip 0 0 else ipv4SearchLoop ip 2 3) = _
  rw [ipv4SearchLoop_0_0, ipv4SearchLoop_2_3]
  split_ifs <;> omega

lemma ipv4SearchLoop_5_5 (ip : Nat) :
    ipv4SearchLoop ip 5 5 = if 0xC6120000 ≤ ip ∧ ip ≤ 0xC613FFFF then 1 else 0 := by
  rw [ipv4SearchLoop]
  show (if ip ≥ 0xC6120000 ∧ ip ≤ 0xC613FFFF then 1
        else if ip < 0xC6120000 then ipv4SearchLoop ip 5 4 else ipv4SearchLoop ip 6 5) = _
  rw [ipv4SearchLoop_stop ip 5 4 (by norm_num), ipv4SearchLoop_stop ip 6 5 (by norm_num)]
  split_ifs <;> omega

lemma ipv4SearchLoop_8_8 (ip : Nat) :
    ipv4SearchLoop ip 8 8 = if 0xE0000000 ≤ ip ∧ ip ≤ 0xFFFFFFFF then 1 else 0 := by
  rw [ipv4SearchLoop]
  show (if ip ≥ 0xE0000000 ∧ ip ≤ 0xFFFFFFFF then 1
        else if ip < 0xE0000000 then ipv4SearchLoop ip 8 7 else ipv4SearchLoop ip 9 8) = _
  rw [ipv4SearchLoop_stop ip 8 7 (by norm_num), ipv4SearchLoop_stop ip 9 8 (by norm_num)]
  split_ifs <;> omega

lemma ipv4SearchLoop_7_8 (ip : Nat) :
    ipv4SearchLoop ip 7 8 =
      if (0xCB007100 ≤ ip ∧ ip ≤ 0xCB0071FF) ∨ (0xE0000000 ≤ ip ∧ ip ≤ 0xFFFFFFFF)
      then 1 else 0 := by
  rw [ipv4SearchLoop]
  show (if ip ≥ 0xCB007100 ∧ ip ≤ 0xCB0071FF then 1
        else if ip < 0xCB007100 then ipv4SearchLoop ip 7 6 else ipv4SearchLoop ip 8 8) = _
  rw [ipv4SearchLoop_stop ip 7 6 (by norm_num), ipv4SearchLoop_8_8]
  split_ifs <;> omega

lemma ipv4SearchLoop_5_8 (ip : Nat) :
    ipv4SearchLoop ip 5 8 =
      if (0xC6120000 ≤ ip ∧ ip ≤ 0xC613FFFF) ∨ (0xC6336400 ≤ ip ∧ ip ≤ 0xC63364FF) ∨
          (0xCB007100 ≤ ip ∧ ip ≤ 0xCB0071FF) ∨ (0xE0000000 ≤ ip ∧ ip ≤ 0xFFFFFFFF)
      then 1 else 0 := by
  rw [ipv4SearchLoop]
  show (if ip ≥ 0xC6336400 ∧ ip ≤ 0xC63364FF then 1
        else if ip < 0xC6336400 then ipv4SearchLoop ip 5 5 else ipv4SearchLoop ip 7 8) = _
  rw [ipv4SearchLoop_5_5, ipv4SearchLoop_7_8]
  split_ifs <;> omega

lemma ipv4SearchLoop_0_8 (ip : Nat) :
    ipv4SearchLoop ip 0 8 =
      if ip ≤ 0x00FFFFFF ∨ (0x64400000 ≤ ip ∧ ip ≤ 0x647FFFFF) ∨
          (0xC0000000 ≤ ip ∧ ip ≤ 0xC0000007) ∨ (0xC0000200 ≤ ip ∧ ip ≤ 0xC00002FF) ∨
          (0xC0586300 ≤ ip ∧ ip ≤ 0xC05863FF) ∨ (0xC6120000 ≤ ip ∧ ip ≤ 0xC613FFFF) ∨
          (0xC6336400 ≤ ip ∧ ip ≤ 0xC63364FF) ∨ (0xCB007100 ≤ ip ∧ ip ≤ 0xCB0071FF) ∨
          (0xE0000000 ≤ ip ∧ ip ≤ 0xFFFFFFFF)
      then 1 else 0 := by
  rw [ipv4SearchLoop]
  show (if ip ≥ 0xC0586300 ∧ ip ≤ 0xC05863FF then 1
        else if ip < 0xC0586300 then ipv4SearchLoop ip 0 3 else ipv4SearchLoop ip 5 8) = _
  rw [ipv4SearchLoop_0_3, ipv4SearchLoop_5_8]
  split_ifs <;> omega

/-- Closed characterization of the binary search: it answers exactly
"does some table range contain `ip`". -/
lemma isReservedIPv4_eq_ite (ip : Nat) :
    IsReservedIPv4 ip =
      if ∃ r ∈ ipv4_reserved_ranges, r.start ≤ ip ∧ ip ≤ r.end_ then 1 else 0 := by
  rw [IsReservedIPv4]
  show ipv4SearchLoop ip 0 8 = _
  rw [ipv4SearchLoop_0_8]
  split_ifs with h1 h2 h3
  · rfl
  · simp [ipv4_reserved_ranges] at h2
    omega
  · simp [ipv4_reserved_ranges] at h3
    omega
  · rfl

/-- The fueled loop agrees with the loop whenever the fuel exceeds the size
of the current search window: the C `while` loop always makes progress. -/
lemma ipv4SearchLoopFuel_eq (fuel : Nat) :
    ∀ (ip : Nat) (l r : Int), (r + 1 - l).toNat < fuel →
      ipv4SearchLoopFuel fuel ip l r = some (ipv4SearchLoop ip l r) := by
  induction fuel with
  | zero =>
    intro ip l r h
    omega
  | succ n ih =>
    intro ip l r h
    rw [ipv4SearchLoopFuel, ipv4SearchLoop]
    by_cases hlr : l ≤ r
    · simp only [if_pos hlr]
      split_ifs with h1 h2
      · rfl
      · exact ih ip l ((l + r) / 2 - 1) (by omega)
      · exact ih ip ((l + r) / 2 + 1) r (by omega)
    · simp only [if_neg hlr]

/-! ### IPv6 prefix matching -/

lemma getD_lt_256 (ip : List Nat) (hb : ∀ b ∈ ip, b < 256) (n : Nat)
    (h : n < ip.length) : ip.getD n 0 < 256 := by
  rw [List.getD_eq_getElem _ _ h]
  exact hb _ (List.getElem_mem h)

lemma land_240_eq_div16 : ∀ x < 256, x &&& 240 = x / 16 * 16 := by decide

lemma land_240_eq_land_4080 : ∀ x < 256, x &&& 240 = x &&& 4080 := by decide

/-- On well-formed 16-byte addresses, the per-entry comparison performed by
the code (`ipv6_matches_pfx`) coincides with the spec-side description
`matchesSpecIPv6`, for every entry of the table. -/
lemma ipv6_matches_pfx_iff (ip : List Nat) (hlen : ip.length = 16)
    (hb : ∀ b ∈ ip, b < 256) (p : IPv6Prefix) (hp : p ∈ ipv6_reserved_prefixes) :
    ipv6_matches_pfx ip p = 1 ↔ matchesSpecIPv6 ip p := by
  have h3 : ip.getD 3 0 < 256 := getD_lt_256 ip hb 3 (by omega)
  have hmask := land_240_eq_land_4080 (ip.getD 3 0) h3
  norm_num at hmask
  fin_cases hp
  · simp [ipv6_matches_pfx, matchesSpecIPv6, List.all_eq_true, List.mem_range]
  · simp [ipv6_matches_pfx, matchesSpecIPv6, List.all_eq_true, List.mem_range]
  · simp [ipv6_matches_pfx, matchesSpecIPv6, List.all_eq_true, List.mem_range]
  · simp [ipv6_matches_pfx, matchesSpecIPv6, List.all_eq_true, List.mem_range]
  · -- 2001:10::/28, the first non-byte-aligned entry
    simp only [ipv6_matches_pfx, matchesSpecIPv6, List.all_eq_true, List.mem_range]
    norm_num
    rw [show (255 : Nat) <<< 4 % 256 = 240 from by decide,
        show (255 : Nat) <<< 4 = 4080 from by decide,
        show (16 : Nat) &&& 240 = 16 from by decide,
        show (16 : Nat) &&& 4080 = 16 from by decide, ← hmask]
    split_ifs <;> simp_all
  · -- 2001:20::/28, the second non-byte-aligned entry
    simp only [ipv6_matches_pfx, matchesSpecIPv6, List.all_eq_true, List.mem_range]
    norm_num
    rw [show (255 : Nat) <<< 4 % 256 = 240 from by decide,
        show (255 : Nat) <<< 4 = 4080 from by decide,
        show (32 : Nat) &&& 240 = 32 from by decide,
        show (32 : Nat) &&& 4080 = 32 from by decide, ← hmask]
    split_ifs <;> simp_all
  · simp [ipv6_matches_pfx, matchesSpecIPv6, List.all_eq_true, List.mem_range]
  · simp [ipv6_matches_pfx, matchesSpecIPv6, List.all_eq_true, List.mem_range]

/-- Characterization of `IsReservedIPv6` on a present (non-null) well-formed
address: it returns 1 exactly when some table entry matches in the sense of
the spec-side `matchesSpecIPv6`. -/
lemma isReservedIPv6_some_iff (ip : List Nat) (hlen : ip.length = 16)
    (hb : ∀ b ∈ ip, b < 256) :
    (IsReservedIPv6 (some ip) = 1 ↔ ∃ p ∈ ipv6_reserved_prefixes, matchesSpecIPv6 ip p) := by
  have key : (ipv6_reserved_prefixes.any fun p => ipv6_matches_pfx ip p == 1) = true ↔
      ∃ p ∈ ipv6_reserved_prefixes, matchesSpecIPv6 ip p := by
    rw [List.any_eq_true]
    constructor
    · rintro ⟨p, hp, hm⟩
      exact ⟨p, hp, (ipv6_matches_pfx_iff ip hlen hb p hp).mp (by simpa using hm)⟩
    · rintro ⟨p, hp, hm⟩
      exact ⟨p, hp, by simpa using (ipv6_matches_pfx_iff ip hlen hb p hp).mpr hm⟩
  show (if ipv6_reserved_prefixes.any (fun p => ipv6_matches_pfx ip p == 1) then 1 else 0) = 1
      ↔ _
  split_ifs with h
  · simp [key.mp h]
  · simp [(not_iff_not.mpr key).mp h]

/-- `IsReservedIPv6` only ever returns 0 or 1. -/
lemma isReservedIPv6_zero_or_one (ip16 : Option (List Nat)) :
    IsReservedIPv6 ip16 = 0 ∨ IsReservedIPv6 ip16 = 1 := by
  cases ip16 with
  | none => exact Or.inl rfl
  | some ip =>
    show (if ipv6_reserved_prefixes.any (fun p => ipv6_matches_pfx ip p == 1) then 1 else 0) = 0
        ∨ (if ipv6_reserved_prefixes.any (fun p => ipv6_matches_pfx ip p == 1) then 1 else 0) = 1
    split_ifs <;> simp

/-! ### Claims -/

/-- C1: for every IPv4 table entry and every 32-bit address `a` with
`entry.start ≤ a ≤ entry.end`, `IsReservedIPv4 a` returns 1. -/
theorem ipv4_in_table_range_is_reserved (r : IPv4Range) (hr : r ∈ ipv4_reserved_ranges)
    (a : Nat) (ha : a < 2 ^ 32) (h1 : r.start ≤ a) (h2 : a ≤ r.end_) :
    IsReservedIPv4 a = 1 := by
  rw [isReservedIPv4_eq_ite, if_pos ⟨r, hr, h1, h2⟩]

theorem ipv4_in_table_range_is_reserved_witness :
    (⟨0x64400000, 0x647FFFFF⟩ : IPv4Range) ∈ ipv4_reserved_ranges ∧
    (0x64400123 : Nat) < 2 ^ 32 ∧
    (⟨0x64400000, 0x647FFFFF⟩ : IPv4Range).start ≤ 0x64400123 ∧
    (0x64400123 : Nat) ≤ (⟨0x64400000, 0x647FFFFF⟩ : IPv4Range).end_ ∧
    IsReservedIPv4 0x64400123 = 1 :=
  ⟨by decide, by decide, by decide, by decide,
    ipv4_in_table_range_is_reserved ⟨0x64400000, 0x647FFFFF⟩ (by decide) 0x64400123
      (by decide) (by decide) (by decide)⟩

/-- C2: every 32-bit address lying in none of the nine table ranges gets
`IsReservedIPv4 a = 0`. -/
theorem ipv4_outside_all_ranges_not_reserved (a : Nat) (ha : a < 2 ^ 32)
    (h : ∀ r ∈ ipv4_reserved_ranges, ¬(r.start ≤ a ∧ a ≤ r.end_)) :
    IsReservedIPv4 a = 0 := by
  rw [isReservedIPv4_eq_ite, if_neg (by rintro ⟨r, hr, hc⟩; exact h r hr hc)]

theorem ipv4_outside_all_ranges_not_reserved_witness :
    (0x01000000 : Nat) < 2 ^ 32 ∧
    (∀ r ∈ ipv4_reserved_ranges, ¬(r.start ≤ 0x01000000 ∧ (0x01000000 : Nat) ≤ r.end_)) ∧
    IsReservedIPv4 0x01000000 = 0 :=
  ⟨by decide, by decide,
    ipv4_outside_all_ranges_not_reserved 0x01000000 (by decide) (by decide)⟩

/-- C3: for every non-null well-formed 16-byte address, `IsReservedIPv6`
returns 1 iff at least one of the eight table prefixes matches on its leading
`prefix_len` bits, in the byte-plus-masked-remainder sense of
`matchesSpecIPv6` (1 at the first matching entry, 0 after exhausting the
table). -/
theorem ipv6_reserved_iff_some_entry_matches (ip : List Nat) (hv : ValidIPv6 ip) :
    (IsReservedIPv6 (some ip) = 1 ↔ ∃ p ∈ ipv6_reserved_prefixes, matchesSpecIPv6 ip p) :=
  isReservedIPv6_some_iff ip hv.1 hv.2

theorem ipv6_reserved_iff_some_entry_matches_witness :
    ValidIPv6 [0, 0, 0, 0, 0, 0, 0, 0, 0, 0, 0xFF, 0xFF, 0, 0, 0, 0] ∧
    (IsReservedIPv6 (some [0, 0, 0, 0, 0, 0, 0, 0, 0, 0, 0xFF, 0xFF, 0, 0, 0, 0]) = 1 ↔
      ∃ p ∈ ipv6_reserved_prefixes,
        matchesSpecIPv6 [0, 0, 0, 0, 0, 0, 0, 0, 0, 0, 0xFF, 0xFF, 0, 0, 0, 0] p) :=
  ⟨⟨rfl, by decide⟩, ipv6_reserved_iff_some_entry_matches _ ⟨rfl, by decide⟩⟩

/-- C4: a null/absent IPv6 address reference yields 0 ("not reserved"); in the
embedding the null pointer is `none` and the result is a defined value, so no
fault can be raised. -/
theorem ipv6_null_is_not_reserved : IsReservedIPv6 none = 0 := rfl

/-- C5: the static IPv4 table satisfies the binary-search invariant:
`start ≤ end` in each entry, strictly ascending `start`s, and pairwise
non-overlapping closed intervals. -/
theorem ipv4_table_sorted_invariant :
    (∀ r ∈ ipv4_reserved_ranges, r.start ≤ r.end_) ∧
    ipv4_reserved_ranges.Pairwise (fun r s => r.start < s.start) ∧
    ipv4_reserved_ranges.Pairwise (fun r s => r.end_ < s.start) := by
  decide

/-- C6 counterexample: the claim asserts that ANY address agreeing with the
`2001:0010` pattern except in the high nibble of byte 3 makes `IsReservedIPv6`
return false.  The address `2001::` (bytes `20 01 00 00 ...`) differs from the
pattern only in that nibble (0 instead of 1), yet `IsReservedIPv6` returns 1,
because the address matches the distinct table entry `2001::/32` (Teredo).
(The nibble value 2 likewise hits `2001:20::/28`.) -/
theorem ipv6_orchid_nibble_counterexample :
    (0x00 : Nat) / 16 ≠ 0x01 ∧
    IsReservedIPv6 (some [0x20, 0x01, 0x00, 0x00, 0, 0, 0, 0, 0, 0, 0, 0, 0, 0, 0, 0]) = 1 := by
  decide

/-- C6 (amended): for a well-formed address with bytes `20 01 00` and byte 3
high nibble 1 (top 28 bits equal to the `2001:001` pattern), `IsReservedIPv6`
returns 1; if the high nibble of byte 3 instead differs from 0, 1 AND 2 (so
that the address also avoids the overlapping `2001::/32` and `2001:20::/28`
entries), `IsReservedIPv6` returns 0. -/
theorem ipv6_orchid_nibble_match_amended (ip : List Nat) (hv : ValidIPv6 ip)
    (hb0 : ip.getD 0 0 = 0x20) (hb1 : ip.getD 1 0 = 0x01) (hb2 : ip.getD 2 0 = 0x00) :
    (ip.getD 3 0 / 16 = 0x01 → IsReservedIPv6 (some ip) = 1) ∧
    (ip.getD 3 0 / 16 ≠ 0x00 → ip.getD 3 0 / 16 ≠ 0x01 → ip.getD 3 0 / 16 ≠ 0x02 →
      IsReservedIPv6 (some ip) = 0) := by
  obtain ⟨hlen, hb⟩ := hv
  have h3 : ip.getD 3 0 < 256 := getD_lt_256 ip hb 3 (by omega)
  have hdiv := land_240_eq_div16 (ip.getD 3 0) h3
  have hm40 := land_240_eq_land_4080 (ip.getD 3 0) h3
  simp only [List.getD_eq_getElem?_getD] at hb0 hb1 hb2 h3 hdiv hm40
  constructor
  · intro hn
    simp only [List.getD_eq_getElem?_getD] at hn
    refine (isReservedIPv6_some_iff ip hlen hb).mpr
      ⟨⟨[0x20, 0x01, 0x00, 0x10, 0, 0, 0, 0, 0, 0, 0, 0, 0, 0, 0, 0], 28⟩,
        by norm_num [ipv6_reserved_prefixes], ?_, ?_⟩
    · intro i hi
      simp only [List.getD_eq_getElem?_getD]
      norm_num at hi
      interval_cases i <;> simp_all
    · intro _
      simp only [List.getD_eq_getElem?_getD]
      norm_num
      rw [show (255 : Nat) <<< 4 = 4080 from by decide,
          show (16 : Nat) &&& 4080 = 16 from by decide, ← hm40, hdiv]
      omega
  · intro hn0 hn1 hn2
    simp only [List.getD_eq_getElem?_getD] at hn0 hn1 hn2
    rcases isReservedIPv6_zero_or_one (some ip) with h | h
    · exact h
    · exfalso
      obtain ⟨p, hp, hm⟩ := (isReservedIPv6_some_iff ip hlen hb).mp h
      fin_cases hp
      · have := hm.1 0 (by norm_num)
        simp only [List.getD_eq_getElem?_getD] at this
        norm_num at this
        omega
      · have := hm.1 0 (by norm_num)
        simp only [List.getD_eq_getElem?_getD] at this
        norm_num at this
        omega
      · have := hm.1 0 (by norm_num)
        simp only [List.getD_eq_getElem?_getD] at this
        norm_num at this
        omega
      · have := hm.1 3 (by norm_num)
        simp only [List.getD_eq_getElem?_getD] at this
        norm_num at this
        omega
      · have := hm.2 (by norm_num)
        simp only [List.getD_eq_getElem?_getD] at this
        norm_num at this
        rw [show (255 : Nat) <<< 4 = 4080 from by decide,
            show (16 : Nat) &&& 4080 = 16 from by decide, ← hm40, hdiv] at this
        omega
      · have := hm.2 (by norm_num)
        simp only [List.getD_eq_getElem?_getD] at this
        norm_num at this
        rw [show (255 : Nat) <<< 4 = 4080 from by decide,
            show (32 : Nat) &&& 4080 = 32 from by decide, ← hm40, hdiv] at this
        omega
      · have := hm.1 2 (by norm_num)
        simp only [List.getD_eq_getElem?_getD] at this
        norm_num at this
        omega
      · have := hm.1 0 (by norm_num)
        simp only [List.getD_eq_getElem?_getD] at this
        norm_num at this
        omega

theorem ipv6_orchid_nibble_match_amended_witness :
    ValidIPv6 [0x20, 0x01, 0x00, 0x1F, 0, 0, 0, 0, 0, 0, 0, 0, 0, 0, 0, 0] ∧
    IsReservedIPv6 (some [0x20, 0x01, 0x00, 0x1F, 0, 0, 0, 0, 0, 0, 0, 0, 0, 0, 0, 0]) = 1 ∧
    IsReservedIPv6 (some [0x20, 0x01, 0x00, 0x35, 0, 0, 0, 0, 0, 0, 0, 0, 0, 0, 0, 0]) = 0 :=
  ⟨⟨rfl, by decide⟩,
    (ipv6_orchid_nibble_match_amended [0x20, 0x01, 0x00, 0x1F, 0, 0, 0, 0, 0, 0, 0, 0, 0, 0, 0, 0]
      ⟨rfl, by decide⟩ (by decide) (by decide) (by decide)).1 (by decide),
    (ipv6_orchid_nibble_match_amended [0x20, 0x01, 0x00, 0x35, 0, 0, 0, 0, 0, 0, 0, 0, 0, 0, 0, 0]
      ⟨rfl, by decide⟩ (by decide) (by decide) (by decide)).2 (by decide) (by decide)
      (by decide)⟩

/-- C7: the three concrete IPv6 vectors: the all-zero address (exact `::/128`
match) gives 1; `2001:db8::1` gives 1 (the `/32` match ignores trailing
bytes); `2001:db9::` (one bit off in byte 3) gives 0. -/
theorem ipv6_concrete_vectors :
    IsReservedIPv6 (some [0, 0, 0, 0, 0, 0, 0, 0, 0, 0, 0, 0, 0, 0, 0, 0]) = 1 ∧
    IsReservedIPv6 (some [0x20, 0x01, 0x0d, 0xb8, 0, 0, 0, 0, 0, 0, 0, 0, 0, 0, 0, 0x01]) = 1 ∧
    IsReservedIPv6 (some [0x20, 0x01, 0x0d, 0xb9, 0, 0, 0, 0, 0, 0, 0, 0, 0, 0, 0, 0]) = 0 := by
  decide

/-- C8: on every 32-bit input the binary search returns exactly what the
naive linear scan over the nine ranges returns. -/
theorem ipv4_binary_search_eq_linear_scan (a : Nat) (ha : a < 2 ^ 32) :
    IsReservedIPv4 a = linearScanIPv4 a := by
  rw [isReservedIPv4_eq_ite, linearScanIPv4]
  have hiff : (ipv4_reserved_ranges.any fun r => decide (r.start ≤ a ∧ a ≤ r.end_)) = true ↔
      ∃ r ∈ ipv4_reserved_ranges, r.start ≤ a ∧ a ≤ r.end_ := by
    rw [List.any_eq_true]
    simp
  split_ifs with h1 h2 h3
  · rfl
  · exact absurd (hiff.mpr h1) h2
  · exact absurd (hiff.mp h3) h1
  · rfl

theorem ipv4_binary_search_eq_linear_scan_witness :
    (0xC0586305 : Nat) < 2 ^ 32 ∧
    IsReservedIPv4 0xC0586305 = linearScanIPv4 0xC0586305 :=
  ⟨by decide, ipv4_binary_search_eq_linear_scan 0xC0586305 (by decide)⟩

/-- C10: both classifiers terminate on every input: the binary-search loop
finishes within `table size + 1` iterations of its fuel (it always makes
progress), and `IsReservedIPv6` is total, returning a defined 0/1 value on
null and on every 16-byte input. -/
theorem classifiers_terminate :
    (∀ ip : Nat,
      ipv4SearchLoopFuel (ipv4_reserved_ranges.length + 1) ip 0 (ipv4_ranges_count - 1) =
        some (IsReservedIPv4 ip)) ∧
    (∀ ip16 : Option (List Nat), IsReservedIPv6 ip16 = 0 ∨ IsReservedIPv6 ip16 = 1) := by
  constructor
  · intro ip
    rw [IsReservedIPv4]
    exact ipv4SearchLoopFuel_eq _ ip 0 (ipv4_ranges_count - 1) (by decide)
  · exact isReservedIPv6_zero_or_one
